import Mathlib

/-
Verification of the posggym POSG environment library.

Part 1 embeds src/posggym/core.py (the abstract Env class, the Wrapper
classes and their step/unwrapped/__getattr__ behaviour) directly from the
source.

Part 2 models the grid-world simulation engine (Grid, CollisionResolver,
ObservationWindow, the seeded-RNG episode driver and the step/reset state
machine).  The modules implementing that engine
(posggym/envs/grid_world/core.py, posggym/model.py, the DefaultEnv class and
the concrete grid-world models) are not present under src/ -- only their
declarations, callers and consumers are (core.py declares the abstract Env,
MABCEnv subclasses core.DefaultEnv, docs/scripts/gen_gifs.py drives the step
loop, and the level-based-foraging heuristic policies consume observations).
Those definitions are therefore modelled from the spec, as marked in their
doc comments.
-/

/-! ## Part 1: embedding of src/posggym/core.py -/

/-- The result of `Env.step` in src/posggym/core.py (lines 43-46): the return
type annotation is `Tuple[M.JointObservation, M.JointReward, bool, Dict]`,
i.e. a joint observation, a joint reward, a single boolean done flag, and an
info dict. -/
structure StepResult (O R I : Type) where
  observations : O
  rewards : R
  done : Bool
  info : I
deriving DecidableEq

/-- The component names of the `Env.step` result tuple, in order, as unpacked
by `ObservationWrapper.step` at src/posggym/core.py line 278:
`observations, reward, done, info = self.env.step(actions)`. -/
def stepResultFields : List String :=
  ["observations", "rewards", "done", "info"]

/-- Python tuple unpacking into six targets, as performed on the result of
`env.step(action)` by src/docs/scripts/gen_gifs.py line 75:
`_, _, _, _, done, _ = env.step(action)`.  Unpacking succeeds only when the
tuple has exactly six components; otherwise Python raises ValueError,
modelled here as `none`. -/
def unpackSix {α : Type} : List α → Option (α × α × α × α × α × α)
  | [a, b, c, d, e, f] => some (a, b, c, d, e, f)
  | _ => none

/-- `ObservationWrapper.step` (src/posggym/core.py lines 277-279): unpacks
the inner environment's step result and transforms only the observations
component, passing rewards, done and info through unchanged. -/
def observationWrapperStep {A O O2 R I : Type} (innerStep : A → StepResult O R I)
    (transform : O → O2) (actions : A) : StepResult O2 R I :=
  let r := innerStep actions
  ⟨transform r.observations, r.rewards, r.done, r.info⟩

/-- `RewardWrapper.step` (src/posggym/core.py lines 296-298): unpacks the
inner environment's step result and transforms only the rewards component. -/
def rewardWrapperStep {A O R R2 I : Type} (innerStep : A → StepResult O R I)
    (transform : R → R2) (actions : A) : StepResult O R2 I :=
  let r := innerStep actions
  ⟨r.observations, transform r.rewards, r.done, r.info⟩

/-- `ActionWrapper.step` (src/posggym/core.py lines 316-317): forwards the
transformed actions to the inner environment and returns its result
unchanged. -/
def actionWrapperStep {A A2 O R I : Type} (innerStep : A → StepResult O R I)
    (transform : A2 → A) (actions : A2) : StepResult O R I :=
  innerStep (transform actions)

/-- An environment instance is either a base (non-Wrapper) `Env` or a
`Wrapper` holding an inner environment (`self.env`, stored by
`Wrapper.__init__` at src/posggym/core.py line 175). -/
inductive PEnv (B : Type) where
  | base (e : B)
  | wrapper (env : PEnv B)
deriving DecidableEq

/-- The `unwrapped` property: `Env.unwrapped` returns `self`
(src/posggym/core.py lines 137-147); `Wrapper.unwrapped` returns
`self.env.unwrapped` (lines 256-258). -/
def PEnv.unwrapped {B : Type} : PEnv B → PEnv B
  | .base e => .base e
  | .wrapper env => env.unwrapped

/-- The innermost base environment of a wrapper chain. -/
def PEnv.innermost {B : Type} : PEnv B → B
  | .base e => e
  | .wrapper env => env.innermost

/-- Whether an environment instance is a `Wrapper`. -/
def PEnv.isWrapperLayer {B : Type} : PEnv B → Bool
  | .base _ => false
  | .wrapper _ => true

/-- Result of a Python attribute access: either a value or AttributeError. -/
inductive AttrLookup (V : Type) where
  | found (v : V)
  | attributeError
deriving DecidableEq

/-- `name.startswith` applied to the one-character string consisting of an
underscore (src/posggym/core.py line 185): true exactly when the first
character of `name` is an underscore. -/
def startsWithUnderscore (name : String) : Bool :=
  match name.data with
  | [] => false
  | c :: _ => c = '_'

/-- `Wrapper.__getattr__` (src/posggym/core.py lines 184-189): raises
AttributeError for names starting with an underscore, otherwise forwards the
lookup to the wrapped environment via `getattr(self.env, name)`. -/
def wrapperGetattr {V : Type} (envAttr : String → AttrLookup V)
    (name : String) : AttrLookup V :=
  if startsWithUnderscore name then .attributeError
  else envAttr name

/-- Full attribute access on a `Wrapper` instance: Python invokes
`__getattr__` only when normal lookup fails, i.e. when the wrapper object
does not itself define the attribute. -/
def wrapperAttrAccess {V : Type} (ownAttr : String → Option V)
    (envAttr : String → AttrLookup V) (name : String) : AttrLookup V :=
  match ownAttr name with
  | some v => .found v
  | none => wrapperGetattr envAttr name

/-! ## Part 2: the grid-world engine, modelled from the spec -/

/-- An integer grid coordinate (x, y). -/
abbrev Coord := Int × Int

/-- Modelled from the spec: Direction, the closed enumeration
NORTH/SOUTH/EAST/WEST/NONE of section 3; the implementing module
posggym/envs/grid_world/core.py is absent from src/. -/
inductive Direction where
  | north
  | south
  | east
  | west
  | stay
deriving DecidableEq, BEq

/-- Modelled from the spec: the unit Coord delta of each Direction
(section 3); y grows southward. -/
def Direction.delta : Direction → Coord
  | .north => (0, -1)
  | .south => (0, 1)
  | .east => (1, 0)
  | .west => (-1, 0)
  | .stay => (0, 0)

/-- Modelled from the spec: Grid, the static map of free/blocked cells with
width, height and optional start-position list (section 3); the implementing
module posggym/envs/grid_world/core.py is absent from src/. -/
structure Grid where
  width : Nat
  height : Nat
  blocked : List Coord
  startCoords : List Coord
deriving DecidableEq

/-- Whether a coordinate lies within the grid bounds. -/
def Grid.inBounds (g : Grid) (c : Coord) : Bool :=
  decide (0 ≤ c.1) && decide (c.1 < (g.width : Int)) &&
    decide (0 ≤ c.2) && decide (c.2 < (g.height : Int))

/-- Modelled from the spec: `Grid.is_blocked` (section 4.1). -/
def Grid.isBlocked (g : Grid) (c : Coord) : Bool :=
  decide (c ∈ g.blocked)

/-- Modelled from the spec: `Grid.neighbor` (section 4.1), the coordinate
shifted by the direction's unit delta. -/
def Grid.neighbor (_ : Grid) (c : Coord) (d : Direction) : Coord :=
  (c.1 + d.delta.1, c.2 + d.delta.2)

/-- Modelled from the spec: CollisionResolver step 1 (section 4.2).  The
intended action yields a candidate next cell via `Grid.neighbor`;
out-of-bounds results are treated as blocked (the agent stays in place,
section 4.1), and when `obstacle_collisions` is enabled a blocked candidate
cell is replaced by the agent's current cell. -/
def candidateCell (g : Grid) (obstacleCollisions : Bool) (pos : Coord)
    (dir : Direction) : Coord :=
  let c := g.neighbor pos dir
  if !g.inBounds c then pos
  else if obstacleCollisions && g.isBlocked c then pos
  else c

/-- The number of agents whose candidate next cell is `c`. -/
def claimCount (cands : List Coord) (c : Coord) : Nat :=
  cands.countP fun d => decide (d = c)

/-- Modelled from the spec: CollisionResolver steps 3-5 (section 4.2).
Agents are grouped by candidate cell; any cell claimed by more than one
agent is rejected for all claimants, each of which reverts to its current
position.  When agent-collision semantics are enabled, a direct swap (two
agents whose candidate cells are exactly each other's current cells) is
likewise treated as a mutual collision and both agents revert.  The
resolver is a total function computed in one pass over the agents. -/
def resolveOne (swapCollisions : Bool) (positions cands : List Coord)
    (i : Nat) : Coord :=
  if 1 < claimCount cands (cands.getD i (0, 0)) then positions.getD i (0, 0)
  else if swapCollisions &&
      ((List.range positions.length).any fun j =>
        decide (j ≠ i) &&
          decide (cands.getD j (0, 0) = positions.getD i (0, 0)) &&
          decide (positions.getD j (0, 0) = cands.getD i (0, 0))) then
    positions.getD i (0, 0)
  else cands.getD i (0, 0)

/-- The resolver maps `resolveOne` over the agents in a single pass. -/
def resolveMoves (swapCollisions : Bool) (positions cands : List Coord) :
    List Coord :=
  (List.range positions.length).map (resolveOne swapCollisions positions cands)

/-- Modelled from the spec: the full positional update of one step
(section 4.2): candidate cells from the (possibly substituted) actions,
then collision resolution. -/
def nextPositions (g : Grid) (obstacleCollisions swapCollisions : Bool)
    (positions : List Coord) (dirs : List Direction) : List Coord :=
  let cands := (List.range positions.length).map fun i =>
    candidateCell g obstacleCollisions (positions.getD i (0, 0))
      (dirs.getD i Direction.stay)
  resolveMoves swapCollisions positions cands

/-- Modelled from the spec: the per-episode seeded RNG (sections 4.2, 4.5),
realised as a 64-bit linear congruential generator with explicit wrap-around. -/
def lcg (s : Nat) : Nat :=
  (6364136223846793005 * s + 1442695040888963407) % (2 ^ 64)

/-- The action set of the modelled grid games. -/
def allDirections : List Direction :=
  [.north, .south, .east, .west, .stay]

/-- Modelled from the spec: stochastic action execution, CollisionResolver
step 2 (section 4.2).  Each agent's chosen action executes with probability
`action_probs` (given here as a percentage); otherwise it is replaced by a
uniformly sampled alternative from the action set.  The substitution draws
only from the per-episode seeded RNG, whose state is threaded explicitly. -/
def substituteActions (pct : Nat) (rng : Nat) :
    List Direction → List Direction × Nat
  | [] => ([], rng)
  | d :: ds =>
      let r1 := lcg rng
      let r2 := lcg r1
      let d2 := if r1 % 100 < pct then d
        else allDirections.getD (r2 % 5) Direction.stay
      let rest := substituteActions pct r2 ds
      (d2 :: rest.1, rest.2)

/-- Whether an entity at position `epos` lies within the observing agent's
square visibility window of radius `sight`. -/
def inSight (sight : Nat) (agentPos epos : Coord) : Bool :=
  decide ((epos.1 - agentPos.1).natAbs ≤ sight) &&
    decide ((epos.2 - agentPos.2).natAbs ≤ sight)

/-- Modelled from the spec: ObservationWindow entity encoding (section 4.3);
the level-based-foraging model producing these observations is absent from
src/ (the heuristic policies in
src/posggym/agents/grid_world/level_based_foraging/heuristic.py consume
them, skipping entries whose coordinate field is -1).  An entity within the
visibility window is encoded by its window-local coordinates (each in
[0, 2*sight]) and its level; an entity outside the window is encoded by the
fixed sentinel (-1, -1, 0) rather than omitted. -/
def entityObs (sight : Nat) (agentPos : Coord) (e : Coord × Int) :
    Int × Int × Int :=
  if inSight sight agentPos e.1 then
    (e.1.1 - agentPos.1 + sight, e.1.2 - agentPos.2 + sight, e.2)
  else (-1, -1, 0)

/-- Modelled from the spec: ObservationWindow (section 4.3).  One slot per
entity of the configuration, in a fixed order, each encoded by `entityObs`;
out-of-range entities keep their slot with the sentinel value, so the
observation's shape depends only on the configuration's entity list. -/
def observationWindow (sight : Nat) (agentPos : Coord)
    (entities : List (Coord × Int)) : List (Int × Int × Int) :=
  entities.map (entityObs sight agentPos)

/-- Embedded from src/posggym/agents/grid_world/level_based_foraging/
heuristic.py lines 104-125 (`LBFHeuristicPolicy._get_food_by_distance`),
deterministic part: the food observations that enter the distance grouping.
An entry `(y, x, level)` is skipped when `x == -1` (the sentinel for an
out-of-range food) or when its level exceeds `max_food_level`. -/
def foodCandidates (maxFoodLevel : Option Int)
    (foodObs : List (Int × Int × Int)) : List (Int × Int × Int) :=
  foodObs.filter fun f =>
    !(decide (f.2.1 = -1) ||
      (match maxFoodLevel with
       | some m => decide (m < f.2.2)
       | none => false))

/-- Modelled from the spec: the per-episode environment state of the
stateful driver (sections 3, 4.5): current and previous per-agent positions,
the per-episode RNG state and the step counter. -/
structure EnvState where
  positions : List Coord
  prevPositions : List Coord
  rng : Nat
  stepNum : Nat
deriving DecidableEq

/-- Modelled from the spec: a grid-game configuration (section 6):
the static grid, the `obstacle_collisions` and swap-collision flags,
`action_probs` (as a percentage), the visibility radius `sight` and the
episode horizon. -/
structure ModelConfig where
  grid : Grid
  obstacleCollisions : Bool
  swapCollisions : Bool
  actionProbsPct : Nat
  sight : Nat
  horizon : Nat
deriving DecidableEq

/-- Modelled from the spec: `sample_initial_state` with a static start
layout (sections 3, 4.4): agents start on the grid's start coordinates and
the per-episode RNG is seeded from the supplied seed. -/
def modelReset (cfg : ModelConfig) (seed : Nat) : EnvState :=
  { positions := cfg.grid.startCoords
    prevPositions := cfg.grid.startCoords
    rng := lcg seed
    stepNum := 0 }

/-- Modelled from the spec: one model step (section 4.4): stochastic action
substitution from the per-episode RNG, positional update through the
CollisionResolver, per-agent observations through the ObservationWindow
(each agent observes every agent as a level-1 entity), a deterministic
per-agent reward, and the episode-done flag from the horizon. -/
def modelStep (cfg : ModelConfig) (st : EnvState) (acts : List Direction) :
    EnvState × List (List (Int × Int × Int)) × List Int × Bool :=
  let sub := substituteActions cfg.actionProbsPct st.rng acts
  let pos2 := nextPositions cfg.grid cfg.obstacleCollisions cfg.swapCollisions
    st.positions sub.1
  let entities := pos2.map fun p => (p, (1 : Int))
  let obs := pos2.map fun p => observationWindow cfg.sight p entities
  let rewards := pos2.map fun _ => (-1 : Int)
  let done := decide (cfg.horizon ≤ st.stepNum + 1)
  ({ positions := pos2
     prevPositions := st.positions
     rng := sub.2
     stepNum := st.stepNum + 1 }, obs, rewards, done)

/-- The trace of states, observations and rewards produced by applying a
sequence of joint actions from a given state. -/
def runFrom (cfg : ModelConfig) (st : EnvState) :
    List (List Direction) → List (EnvState × List (List (Int × Int × Int)) × List Int)
  | [] => []
  | acts :: rest =>
      let r := modelStep cfg st acts
      (r.1, r.2.1, r.2.2.1) :: runFrom cfg r.1 rest

/-- Modelled from the spec: one full episode run (section 8, Determinism):
`reset(seed)` followed by a fixed sequence of joint actions, recording the
State, joint observation and joint reward of every step. -/
def runEpisode (cfg : ModelConfig) (seed : Nat)
    (actionSeq : List (List Direction)) :
    List (EnvState × List (List (Int × Int × Int)) × List Int) :=
  runFrom cfg (modelReset cfg seed) actionSeq

/-- Modelled from the spec: the Env state machine phases (section 4.5). -/
inductive Phase where
  | uninitialized
  | ready
  | terminal
deriving DecidableEq

/-- Modelled from the spec: the error taxonomy (section 7). -/
inductive PosgError where
  | invalidState
  | invalidAction (agent : Nat)
  | noFreeCell
deriving DecidableEq

/-- Modelled from the spec: the stateful Env driver (section 4.5): the
state-machine phase together with the episode state. -/
structure Driver where
  phase : Phase
  core : EnvState
deriving DecidableEq

/-- Modelled from the spec: `Env.step` of the state-machine driver
(section 4.5): valid only in READY, failing with InvalidStateError in
UNINITIALIZED or TERMINAL; on success the phase becomes TERMINAL exactly
when the episode is done, else stays READY. -/
def driverStep (cfg : ModelConfig) (d : Driver) (acts : List Direction) :
    Except PosgError (Driver × List (List (Int × Int × Int)) × List Int × Bool) :=
  if d.phase ≠ Phase.ready then .error .invalidState
  else
    let r := modelStep cfg d.core acts
    .ok ({ phase := if r.2.2.2 then .terminal else .ready, core := r.1 },
      r.2.1, r.2.2.1, r.2.2.2)

/-- Modelled from the spec: `Env.reset(seed)` of the state-machine driver
(section 4.5): valid in any state and always returns to READY. -/
def driverReset (cfg : ModelConfig) (_ : Driver) (seed : Nat) : Driver :=
  { phase := .ready, core := modelReset cfg seed }

/-- Modelled from the spec: POSGModel action validation (section 4.4): the
index of the first agent whose action is not contained in that agent's
declared action space, if any. -/
def firstInvalidAgent (spaces : List (List Direction))
    (acts : List Direction) : Option Nat :=
  (List.range acts.length).find? fun i =>
    !((spaces.getD i []).contains (acts.getD i Direction.stay))

/-- A concrete 5x5 unblocked grid with two agents starting at (0,0) and
(4,4), the concrete scenario of spec section 8. -/
def grid5 : Grid :=
  { width := 5, height := 5, blocked := [], startCoords := [(0, 0), (4, 4)] }

/-- A concrete configuration on `grid5`: collisions enforced, deterministic
actions (`action_probs = 1.0`), sight radius 2, horizon 20. -/
def demoConfig : ModelConfig :=
  { grid := grid5
    obstacleCollisions := true
    swapCollisions := true
    actionProbsPct := 100
    sight := 2
    horizon := 20 }

/-- Modelled from the spec: the driver step with action validation
(sections 4.4, 7): an out-of-space action makes step fail with
InvalidActionError naming the offending agent, and the driver (hence the
current State) is returned unchanged; otherwise the state-machine step
runs.  The driver component of the result is the new driver state, kept
unchanged on any error. -/
def checkedStep (cfg : ModelConfig) (spaces : List (List Direction))
    (d : Driver) (acts : List Direction) :
    Driver × Except PosgError (List (List (Int × Int × Int)) × List Int × Bool) :=
  match firstInvalidAgent spaces acts with
  | some i => (d, .error (.invalidAction i))
  | none =>
      match driverStep cfg d acts with
      | .error e => (d, .error e)
      | .ok r => (r.1, .ok r.2)

/-! ## Helper lemmas -/

/-- Indexing with default into a map over `List.range`. -/
theorem getD_map_range {α : Type} (n : Nat) (f : Nat → α) (d : α) (i : Nat) :
    ((List.range n).map f).getD i d = if i < n then f i else d := by
  by_cases h : i < n
  · rw [List.getD_eq_getElem?_getD, List.getElem?_map, List.getElem?_range h]
    simp [h]
  · rw [List.getD_eq_getElem?_getD, List.getElem?_map,
      List.getElem?_eq_none (by simpa using Nat.le_of_not_lt h)]
    simp [h]

/-! ## Claim theorems -/

/-- C1: the claim states that the public step operation returns a
six-component result with per-agent terminated and truncated flags separate
from a single episode_done flag.  The step contract declared and implemented
in src/posggym/core.py instead has exactly the four components
(observations, rewards, done, info) with one aggregate boolean done flag —
so the six-way unpacking performed by the repository's own driver script
(src/docs/scripts/gen_gifs.py line 75) fails on it, while the spec's
six-component form matches that caller and the JointTimestep constructed in
src/posggym/envs/continous/MultiAgentPursuitEvasion.py. -/
theorem C1_core_step_has_four_components_not_six :
    stepResultFields.length = 4 ∧
    ¬ stepResultFields.length = 6 ∧
    unpackSix stepResultFields = none ∧
    "terminated" ∉ stepResultFields ∧
    "truncated" ∉ stepResultFields ∧
    "episode_done" ∉ stepResultFields :=
  ⟨rfl, by decide, rfl, by decide, by decide, by decide⟩

/-- C8: each wrapper layer rewrites only its own component of the step
result: `ObservationWrapper.step` transforms the observations and passes
rewards, done and info through; `RewardWrapper.step` transforms the rewards
and passes the rest through; `ActionWrapper.step` forwards the transformed
actions to the inner environment and returns its result unchanged
(src/posggym/core.py lines 277-279, 296-298, 316-317). -/
theorem C8_wrappers_rewrite_only_their_component
    {A A2 O O2 R R2 I : Type} (innerStep : A → StepResult O R I)
    (tObs : O → O2) (tRew : R → R2) (tAct : A2 → A) (a : A) (a2 : A2) :
    ((observationWrapperStep innerStep tObs a).observations
        = tObs (innerStep a).observations ∧
      (observationWrapperStep innerStep tObs a).rewards
        = (innerStep a).rewards ∧
      (observationWrapperStep innerStep tObs a).done = (innerStep a).done ∧
      (observationWrapperStep innerStep tObs a).info = (innerStep a).info) ∧
    ((rewardWrapperStep innerStep tRew a).observations
        = (innerStep a).observations ∧
      (rewardWrapperStep innerStep tRew a).rewards
        = tRew (innerStep a).rewards ∧
      (rewardWrapperStep innerStep tRew a).done = (innerStep a).done ∧
      (rewardWrapperStep innerStep tRew a).info = (innerStep a).info) ∧
    actionWrapperStep innerStep tAct a2 = innerStep (tAct a2) :=
  ⟨⟨rfl, rfl, rfl, rfl⟩, ⟨rfl, rfl, rfl, rfl⟩, rfl⟩

/-- C9: `unwrapped` strips all wrapper layers and is idempotent: on a base
environment it returns the environment itself, on a chain of wrappers it
returns the innermost non-Wrapper environment, and unwrapping twice equals
unwrapping once (src/posggym/core.py lines 137-147 and 256-258). -/
theorem C9_unwrapped_idempotent_strips_wrappers {B : Type} (e : PEnv B) :
    e.unwrapped = PEnv.base e.innermost ∧
    e.unwrapped.isWrapperLayer = false ∧
    e.unwrapped.unwrapped = e.unwrapped ∧
    ∀ b : B, (PEnv.base b).unwrapped = PEnv.base b := by
  induction e with
  | base e => exact ⟨rfl, rfl, rfl, fun _ => rfl⟩
  | wrapper env ih => exact ⟨ih.1, ih.2.1, ih.2.2.1, fun _ => rfl⟩

/-- C10: wrapper attribute delegation excludes private names: when a wrapper
does not itself define an attribute, the lookup is forwarded to the wrapped
environment, except that a name starting with an underscore raises
AttributeError instead of being forwarded (src/posggym/core.py
lines 184-189). -/
theorem C10_getattr_blocks_private_forwards_public {V : Type}
    (ownAttr : String → Option V) (envAttr : String → AttrLookup V)
    (name : String) (hmiss : ownAttr name = none) :
    (startsWithUnderscore name = true →
      wrapperAttrAccess ownAttr envAttr name = AttrLookup.attributeError) ∧
    (startsWithUnderscore name = false →
      wrapperAttrAccess ownAttr envAttr name = envAttr name) := by
  constructor <;> intro h <;>
    simp [wrapperAttrAccess, hmiss, wrapperGetattr, h]

/-- Witness for C10 at concrete inputs: looking up the private name _state
on a wrapper defining no attributes raises AttributeError, while the public
name model is forwarded to the wrapped environment. -/
theorem C10_witness :
    wrapperAttrAccess (fun _ => (none : Option Nat))
      (fun n => if n = "model" then .found 1 else .attributeError) "_state"
      = AttrLookup.attributeError ∧
    wrapperAttrAccess (fun _ => (none : Option Nat))
      (fun n => if n = "model" then .found 1 else .attributeError) "model"
      = AttrLookup.found 1 := by
  constructor
  · exact (C10_getattr_blocks_private_forwards_public _ _ "_state" rfl).1
      (by decide)
  · have h := (C10_getattr_blocks_private_forwards_public
      (fun _ => (none : Option Nat))
      (fun n => if n = "model" then .found 1 else .attributeError)
      "model" rfl).2 (by decide)
    rw [h]
    decide

/-- C2: for a fixed seed and a fixed finite sequence of joint actions, two
runs that each call reset(seed) and then apply that action sequence produce
identical states, observations and rewards at every step; the stochastic
action substitution draws only from the per-episode seeded RNG carried in
the state. -/
theorem C2_runs_identical_given_seed_and_actions (cfg : ModelConfig)
    (seed1 seed2 : Nat) (acts1 acts2 : List (List Direction))
    (hseed : seed1 = seed2) (hacts : acts1 = acts2) :
    runEpisode cfg seed1 acts1 = runEpisode cfg seed2 acts2 := by
  rw [hseed, hacts]

/-- Witness for C2 at a concrete input: two runs on the 5x5 configuration
with seed 0 and a one-step action sequence coincide, and the run actually
produces a step. -/
theorem C2_witness :
    runEpisode demoConfig 0 [[Direction.east, Direction.west]]
      = runEpisode demoConfig 0 [[Direction.east, Direction.west]] ∧
    (runEpisode demoConfig 0 [[Direction.east, Direction.west]]).length = 1 :=
  ⟨C2_runs_identical_given_seed_and_actions demoConfig 0 0
      [[Direction.east, Direction.west]] [[Direction.east, Direction.west]]
      rfl rfl,
    rfl⟩

/-- C3: in the CollisionResolver, any cell claimed as candidate next cell by
more than one agent is rejected for all of its claimants: every such agent's
next position equals its current position, uniformly in the claimant (no
priority ordering). -/
theorem C3_multiply_claimed_cell_rejected_for_all
    (swapCollisions : Bool) (positions cands : List Coord) (i : Nat)
    (hi : i < positions.length)
    (hclaim : 1 < claimCount cands (cands.getD i (0, 0))) :
    (resolveMoves swapCollisions positions cands).getD i (0, 0)
      = positions.getD i (0, 0) := by
  unfold resolveMoves
  rw [getD_map_range, if_pos hi]
  simp only [resolveOne]
  rw [if_pos hclaim]

/-- Witness for C3 at the concrete two-agent scenario: agents at (0,0) and
(2,0) both claim cell (1,0); the claim-count hypothesis holds and, applying
the theorem to each claimant, both positions are unchanged.  On the 5x5 grid
the same scenario arises from the full positional update with actions
EAST and WEST. -/
theorem C3_witness :
    (1 : Nat) < claimCount [(1, 0), (1, 0)]
      (([(1, 0), (1, 0)] : List Coord).getD 0 (0, 0)) ∧
    (resolveMoves true [(0, 0), (2, 0)] [(1, 0), (1, 0)]).getD 0 (0, 0)
      = (([(0, 0), (2, 0)] : List Coord).getD 0 (0, 0)) ∧
    (resolveMoves true [(0, 0), (2, 0)] [(1, 0), (1, 0)]).getD 1 (0, 0)
      = (([(0, 0), (2, 0)] : List Coord).getD 1 (0, 0)) ∧
    nextPositions grid5 true true [(0, 0), (2, 0)]
      [Direction.east, Direction.west] = [(0, 0), (2, 0)] := by
  refine ⟨by decide, ?_, ?_, by decide⟩
  · exact C3_multiply_claimed_cell_rejected_for_all true
      [(0, 0), (2, 0)] [(1, 0), (1, 0)] 0 (by decide) (by decide)
  · exact C3_multiply_claimed_cell_rejected_for_all true
      [(0, 0), (2, 0)] [(1, 0), (1, 0)] 1 (by decide) (by decide)

/-- C4: the driver's step is valid only in READY: in UNINITIALIZED or
TERMINAL it fails with InvalidStateError; and reset, from any state, returns
the driver to READY. -/
theorem C4_step_only_in_ready_reset_restores_ready (cfg : ModelConfig)
    (d : Driver) (acts : List Direction) (seed : Nat) :
    (d.phase = Phase.uninitialized ∨ d.phase = Phase.terminal →
      driverStep cfg d acts = .error PosgError.invalidState) ∧
    (driverReset cfg d seed).phase = Phase.ready := by
  constructor
  · intro h
    have hne : d.phase ≠ Phase.ready := by
      rcases h with h | h <;> simp [h]
    simp [driverStep, hne]
  · rfl

/-- Witness for C4 at a concrete input: stepping an UNINITIALIZED driver
fails with InvalidStateError, and resetting it returns READY. -/
theorem C4_witness :
    driverStep demoConfig
      { phase := Phase.uninitialized, core := modelReset demoConfig 0 } []
      = .error PosgError.invalidState ∧
    (driverReset demoConfig
      { phase := Phase.uninitialized, core := modelReset demoConfig 0 } 3).phase
      = Phase.ready := by
  have h := C4_step_only_in_ready_reset_restores_ready demoConfig
    { phase := Phase.uninitialized, core := modelReset demoConfig 0 } [] 3
  exact ⟨h.1 (Or.inl rfl), h.2⟩

/-- C5: a joint action containing an action outside some agent's declared
action space makes step fail with InvalidActionError naming the offending
agent (whose action is indeed outside its space), and the driver state —
hence the current State — is returned unchanged. -/
theorem C5_invalid_action_error_names_agent_state_unchanged
    (cfg : ModelConfig) (spaces : List (List Direction)) (d : Driver)
    (acts : List Direction) (i : Nat)
    (h : firstInvalidAgent spaces acts = some i) :
    (checkedStep cfg spaces d acts).1 = d ∧
    (checkedStep cfg spaces d acts).2
      = .error (PosgError.invalidAction i) ∧
    (spaces.getD i []).contains (acts.getD i Direction.stay) = false := by
  refine ⟨?_, ?_, ?_⟩
  · simp [checkedStep, h]
  · simp [checkedStep, h]
  · have h2 : ((List.range acts.length).find? fun j =>
        !((spaces.getD j []).contains (acts.getD j Direction.stay)))
        = some i := h
    have h3 := List.find?_some h2
    simpa using h3

/-- Witness for C5 at a concrete input: a READY driver stepped with action
SOUTH while agent 0's action space is only NORTH fails with
InvalidActionError naming agent 0 and the driver is unchanged. -/
theorem C5_witness :
    (checkedStep demoConfig [[Direction.north]]
      { phase := Phase.ready, core := modelReset demoConfig 0 }
      [Direction.south]).1
      = { phase := Phase.ready, core := modelReset demoConfig 0 } ∧
    (checkedStep demoConfig [[Direction.north]]
      { phase := Phase.ready, core := modelReset demoConfig 0 }
      [Direction.south]).2
      = .error (PosgError.invalidAction 0) := by
  have h := C5_invalid_action_error_names_agent_state_unchanged demoConfig
    [[Direction.north]]
    { phase := Phase.ready, core := modelReset demoConfig 0 }
    [Direction.south] 0 (by decide)
  exact ⟨h.1, h.2.1⟩

/-- C6: for a fixed configuration the observation has constant shape — one
slot per configured entity, independent of how many entities are in range —
and every entity outside the visibility window is encoded by the sentinel
(-1, -1, 0) in its slot rather than omitted. -/
theorem C6_obs_constant_shape_sentinel_out_of_range (sight : Nat)
    (agentPos : Coord) (entities : List (Coord × Int)) :
    (observationWindow sight agentPos entities).length = entities.length ∧
    ∀ i, i < entities.length →
      inSight sight agentPos (entities.getD i ((0, 0), 0)).1 = false →
      (observationWindow sight agentPos entities).getD i (0, 0, 0)
        = (-1, -1, 0) := by
  constructor
  · simp [observationWindow]
  · intro i hi hout
    have hmap : (observationWindow sight agentPos entities).getD i (0, 0, 0)
        = entityObs sight agentPos (entities.getD i ((0, 0), 0)) := by
      unfold observationWindow
      rw [List.getD_eq_getElem?_getD, List.getElem?_map,
        List.getElem?_eq_getElem hi, List.getD_eq_getElem?_getD,
        List.getElem?_eq_getElem hi]
      rfl
    rw [hmap]
    simp only [entityObs]
    rw [hout]
    simp

/-- Witness for C6 at a concrete input: with sight 1 from (0,0), a two-slot
entity list with one entity far away still yields a two-slot observation,
and the out-of-range entity's slot holds the sentinel. -/
theorem C6_witness :
    (observationWindow 1 (0, 0) [((5, 5), 2), ((0, 1), 3)]).length = 2 ∧
    (observationWindow 1 (0, 0) [((5, 5), 2), ((0, 1), 3)]).getD 0 (0, 0, 0)
      = (-1, -1, 0) := by
  have h := C6_obs_constant_shape_sentinel_out_of_range 1 (0, 0)
    [((5, 5), 2), ((0, 1), 3)]
  exact ⟨h.1, h.2 0 (by decide) (by decide)⟩

/-- C7: the CollisionResolver is a total function computed in one pass: for
every joint set of proposed moves it produces one next position per agent,
and each agent's next position is either its candidate cell or, when a
conflict degrades the move, its current cell — no input makes it fail. -/
theorem C7_resolver_total_one_pass_degrades_to_stay (swapCollisions : Bool)
    (positions cands : List Coord) :
    (resolveMoves swapCollisions positions cands).length = positions.length ∧
    ∀ i,
      (resolveMoves swapCollisions positions cands).getD i (0, 0)
          = cands.getD i (0, 0) ∨
      (resolveMoves swapCollisions positions cands).getD i (0, 0)
          = positions.getD i (0, 0) := by
  constructor
  · simp [resolveMoves]
  · intro i
    unfold resolveMoves
    rw [getD_map_range]
    by_cases hi : i < positions.length
    · rw [if_pos hi]
      simp only [resolveOne]
      split
      · exact Or.inr rfl
      · split
        · exact Or.inr rfl
        · exact Or.inl rfl
    · rw [if_neg hi]
      right
      rw [List.getD_eq_getElem?_getD positions i (0, 0),
        List.getElem?_eq_none (Nat.le_of_not_lt hi)]
      rfl

/-- Supporting fact from the embedded source consumer
(src/posggym/agents/grid_world/level_based_foraging/heuristic.py lines
104-125): a food observation whose coordinate field holds the sentinel -1
never enters the distance grouping of `_get_food_by_distance`. -/
theorem foodCandidates_skip_sentinel (m : Option Int)
    (obs : List (Int × Int × Int)) (f : Int × Int × Int)
    (hf : f ∈ foodCandidates m obs) : ¬ f.2.1 = -1 := by
  have h := List.of_mem_filter hf
  intro he
  simp [he] at h
